import Mathlib

/-!
Verification of the DailyFlow single-page productivity app (src/App.jsx,
two variants). The two stateful cores are embedded here:

* the Pomodoro interval timer (`usePomodoro`): a countdown state machine
  driven by a one-second tick, with `start`, `pause`, `reset` and
  `setPreset` operations;
* the habit streak engine (`toggleHabit` plus the daily-reset effect run
  at application start);
* the persistence boundary (`loadState` over the local-storage record
  under key `"dailyflow_v1"`, and the per-field defaulting in `App`).

JavaScript numbers that the code only adds, subtracts and compares are
embedded as `Int` (durations, seconds, cycle counters) or `Nat`
(non-negative streaks); the JS `x || d` falsy-default idiom on numbers is
`orDefault` (falsy number = 0), and on nullable strings it is `jsOrNull`
(falsy string = absent or empty). Timer modes are the three source
strings "work", "short", "long" as an inductive type.
-/

namespace DailyFlow

/-- Timer phase: the source strings "work" | "short" | "long". -/
inductive Mode where
  | work
  | short
  | long
  deriving DecidableEq

/-- Pomodoro settings record `{ work, short, long, cycles }` (minutes and
the number of work cycles per long break). The source default is
`{ work: 25, short: 5, long: 15, cycles: 4 }`. -/
structure PomodoroSettings where
  work : Int
  short : Int
  long : Int
  cycles : Int
  deriving DecidableEq

/-- The in-memory timer state of `usePomodoro`: settings, current mode,
seconds left, the running flag, and the `cyclesDoneRef` counter. -/
structure PomState where
  settings : PomodoroSettings
  mode : Mode
  secondsLeft : Int
  running : Bool
  cyclesDone : Int
  deriving DecidableEq

/-- JS `x || d` on a number: `0` is falsy, every other number is kept. -/
def orDefault (x d : Int) : Int :=
  if x = 0 then d else x

/-- `((next === "long" ? settings.long : settings.short) || 5)` from the
work-phase-complete branch of the interval callback. -/
def breakDuration (s : PomodoroSettings) (next : Mode) : Int :=
  orDefault (if next = Mode.long then s.long else s.short) 5

/-- `(settings.work || 25)` as used when (re)loading the work phase. -/
def workDuration (s : PomodoroSettings) : Int :=
  orDefault s.work 25

/-- One one-second tick of the interval callback. When the timer is not
running the effect never schedules a tick, so a tick on a paused state is
the identity. When `secondsLeft <= 1` the current phase is exhausted: a
work phase bumps `cyclesDoneRef`, picks long break when the counter is a
multiple of `settings.cycles` and short break otherwise, and loads that
break duration; a break phase returns to work and loads the work
duration. Otherwise one second is subtracted. -/
def tick (st : PomState) : PomState :=
  if st.running = false then st
  else if st.secondsLeft ≤ 1 then
    if st.mode = Mode.work then
      let done := st.cyclesDone + 1
      let next := if done % st.settings.cycles = 0 then Mode.long else Mode.short
      { st with mode := next, cyclesDone := done,
                secondsLeft := breakDuration st.settings next * 60 }
    else
      { st with mode := Mode.work, secondsLeft := workDuration st.settings * 60 }
  else
    { st with secondsLeft := st.secondsLeft - 1 }

/-- `n` consecutive ticks. -/
def ticks : Nat → PomState → PomState
  | 0, st => st
  | n + 1, st => tick (ticks n st)

/-- `start()` from the hook. -/
def start (st : PomState) : PomState :=
  { st with running := true }

/-- `pause()` from the hook. -/
def pause (st : PomState) : PomState :=
  { st with running := false }

/-- `reset()` from the hook. -/
def reset (st : PomState) : PomState :=
  { st with running := false, cyclesDone := 0, mode := Mode.work,
            secondsLeft := workDuration st.settings * 60 }

/-- `(settings[k] || settings.work)` from `setPreset`. -/
def presetDuration (s : PomodoroSettings) (k : Mode) : Int :=
  orDefault (match k with
             | Mode.work => s.work
             | Mode.short => s.short
             | Mode.long => s.long) s.work

/-- `setPreset(k)` from the hook. -/
def setPreset (k : Mode) (st : PomState) : PomState :=
  { st with mode := k, secondsLeft := presetDuration st.settings k * 60,
            running := false }

/-- The source default settings `{ work: 25, short: 5, long: 15, cycles: 4 }`. -/
def defaultSettings : PomodoroSettings :=
  { work := 25, short := 5, long := 15, cycles := 4 }

/-- The fresh hook state: work mode, `settings.work * 60` seconds, paused,
cycle counter zero. -/
def initialState (s : PomodoroSettings) : PomState :=
  { settings := s, mode := Mode.work, secondsLeft := s.work * 60,
    running := false, cyclesDone := 0 }

/-- A habit record `{ id, title, toggledToday, streak, lastSeen }`;
`lastSeen` is the day key string or null. -/
structure Habit where
  id : String
  title : String
  toggledToday : Bool
  streak : Nat
  lastSeen : Option String
  deriving DecidableEq

/-- The per-habit body of `toggleHabit` (the branch where the id
matches): `toggled = !(h.lastSeen === todayKey && h.toggledToday)`,
`streak = toggled && h.lastSeen === todayKey ? h.streak : toggled ?
h.streak + 1 : h.streak`, and `lastSeen = todayKey`. -/
def toggleHabitOne (todayKey : String) (h : Habit) : Habit :=
  let toggled : Bool := !(decide (h.lastSeen = some todayKey) && h.toggledToday)
  let streak : Nat :=
    if toggled && decide (h.lastSeen = some todayKey) then h.streak
    else if toggled then h.streak + 1
    else h.streak
  { h with toggledToday := toggled, lastSeen := some todayKey, streak := streak }

/-- `toggleHabit(id)`: map over the habit list, updating only the habit
whose id matches. -/
def toggleHabit (i todayKey : String) (hs : List Habit) : List Habit :=
  hs.map fun h => if h.id = i then toggleHabitOne todayKey h else h

/-- `n` consecutive `toggleHabitOne` calls with the same day key. -/
def toggleN : Nat → String → Habit → Habit
  | 0, _, h => h
  | n + 1, d, h => toggleHabitOne d (toggleN n d h)

/-- JS `x || null` on a nullable string: null, undefined and the empty
string are falsy and give null. -/
def jsOrNull : Option String → Option String
  | none => none
  | some s => if s = "" then none else some s

/-- The per-habit body of the daily-reset effect run once at application
start: `{ ...h, lastSeen: h.lastSeen || null, toggledToday: h.lastSeen ===
todayKey ? h.toggledToday : false }`. -/
def dailyResetOne (todayKey : String) (h : Habit) : Habit :=
  { h with lastSeen := jsOrNull h.lastSeen,
           toggledToday := if h.lastSeen = some todayKey then h.toggledToday
                           else false }

/-- The daily-reset pass over the whole habit list. -/
def dailyReset (todayKey : String) (hs : List Habit) : List Habit :=
  hs.map (dailyResetOne todayKey)

/-- A todo record `{ id, text, done, created }`. -/
structure Todo where
  id : String
  text : String
  done : Bool
  created : Int
  deriving DecidableEq

/-- The parsed persisted record; every field may be absent in the stored
JSON, hence the options. -/
structure Persisted where
  dark : Option Bool
  todos : Option (List Todo)
  habits : Option (List Habit)
  notes : Option String
  pomodoro : Option PomodoroSettings
  deriving DecidableEq

/-- The local-storage key of the single persisted record. -/
def STORAGE_KEY : String := "dailyflow_v1"

/-- `loadState()`: read the raw string under `STORAGE_KEY`; a missing or
empty raw value gives null (`if (!raw) return null`), and a parse failure
is caught and gives null. The JSON parser is passed in as a function
returning `none` exactly when `JSON.parse` would throw. -/
def loadState (getItem : String → Option String)
    (parse : String → Option Persisted) : Option Persisted :=
  match getItem STORAGE_KEY with
  | none => none
  | some r => if r = "" then none else parse r

/-- The application-level state assembled in `App` from the persisted
record. -/
structure AppState where
  dark : Bool
  todos : List Todo
  habits : List Habit
  notes : String
  pomodoro : PomodoroSettings
  deriving DecidableEq

/-- The per-field defaulting in `App`: `persisted?.dark ?? false`,
`persisted?.todos ?? []`, `persisted?.habits ?? []`, `persisted?.notes ??
""`, and `usePomodoro(persisted?.pomodoro ?? undefined)` whose default
parameter is `defaultSettings`. -/
def initApp (p : Option Persisted) : AppState :=
  { dark := match p with | none => false | some q => q.dark.getD false
  , todos := match p with | none => [] | some q => q.todos.getD []
  , habits := match p with | none => [] | some q => q.habits.getD []
  , notes := match p with | none => "" | some q => q.notes.getD ""
  , pomodoro := match p with
                | none => defaultSettings
                | some q => q.pomodoro.getD defaultSettings }

/-- The default state used when nothing was persisted. -/
def defaultAppState : AppState :=
  { dark := false, todos := [], habits := [], notes := "",
    pomodoro := defaultSettings }

/-- A fresh habit, as created by `addHabit`: never toggled, streak zero,
no last-seen day. -/
def hFresh : Habit :=
  { id := "a", title := "t", toggledToday := false, streak := 0,
    lastSeen := none }

/-- Claim C1: a single `toggleHabit` on the matching habit sets the new
`toggledToday` to the negation of (lastSeen equals today and the old
`toggledToday`), sets `lastSeen` to today unconditionally, and updates
the streak by the decision table: plus one when turning on from a
different (or absent) last-seen day, unchanged when turning on with
lastSeen already today, unchanged when turning off. -/
theorem toggleHabitOne_spec (todayKey : String) (h : Habit) :
    ((toggleHabitOne todayKey h).toggledToday = true ↔
      ¬ (h.lastSeen = some todayKey ∧ h.toggledToday = true))
    ∧ (toggleHabitOne todayKey h).lastSeen = some todayKey
    ∧ ((toggleHabitOne todayKey h).toggledToday = true →
        h.lastSeen ≠ some todayKey →
        (toggleHabitOne todayKey h).streak = h.streak + 1)
    ∧ ((toggleHabitOne todayKey h).toggledToday = true →
        h.lastSeen = some todayKey →
        (toggleHabitOne todayKey h).streak = h.streak)
    ∧ ((toggleHabitOne todayKey h).toggledToday = false →
        (toggleHabitOne todayKey h).streak = h.streak) := by
  by_cases hls : h.lastSeen = some todayKey <;>
    cases hct : h.toggledToday <;>
      simp [toggleHabitOne, hls, hct]

/-- Witness for C1 at a concrete fresh habit: turning it on for the
first time increments the streak. -/
theorem toggleHabitOne_spec_witness :
    (toggleHabitOne "2024-05-01" hFresh).streak = hFresh.streak + 1 := by
  have h := toggleHabitOne_spec "2024-05-01" hFresh
  exact h.2.2.1 (by decide) (by decide)

/-- A tick on a paused state is the identity: the effect bails out with
`if (!running) return` and never schedules the interval. -/
theorem tick_not_running (st : PomState) (h : st.running = false) :
    tick st = st := by
  unfold tick
  simp [h]

/-- While the timer is running and strictly more than `k` seconds remain,
`k` ticks only decrement the countdown: mode, settings, running flag and
cycle counter are untouched. -/
theorem ticks_countdown (st : PomState) (hrun : st.running = true) :
    ∀ k : Nat, (k : Int) < st.secondsLeft →
      ticks k st = { st with secondsLeft := st.secondsLeft - k } := by
  intro k
  induction k with
  | zero =>
    intro _
    simp [ticks]
  | succ m ih =>
    intro hlt
    have hm : (m : Int) < st.secondsLeft := by push_cast at hlt ⊢; omega
    rw [ticks, ih hm]
    unfold tick
    have h1 : ¬ (st.secondsLeft - (m : Int) ≤ 1) := by push_cast at hlt; omega
    simp only [hrun, h1, if_false, if_true, Bool.true_eq_false]
    congr 1
    push_cast
    omega

/-- Claim C2: from a fresh running work state with positive settings,
exactly `work * 60` ticks exhaust the work phase and land in short break
(long break when `cycles = 1`) with the new mode's full configured
duration loaded, still running, with one completed work cycle. -/
theorem tick_work_phase_complete (s : PomodoroSettings)
    (hw : 0 < s.work) (hsh : 0 < s.short) (hlo : 0 < s.long)
    (hc : 0 < s.cycles) :
    ticks (s.work * 60).toNat (start (initialState s)) =
      { settings := s
      , mode := if s.cycles = 1 then Mode.long else Mode.short
      , secondsLeft := (if s.cycles = 1 then s.long else s.short) * 60
      , running := true
      , cyclesDone := 1 } := by
  have hW : ((s.work * 60).toNat : Int) = s.work * 60 :=
    Int.toNat_of_nonneg (by positivity)
  have hW1 : 1 ≤ (s.work * 60).toNat := by omega
  obtain ⟨m, hm⟩ : ∃ m, (s.work * 60).toNat = m + 1 :=
    ⟨(s.work * 60).toNat - 1, by omega⟩
  have hsec : (start (initialState s)).secondsLeft = s.work * 60 := rfl
  have hmlt : (m : Int) < (start (initialState s)).secondsLeft := by
    rw [hsec]; omega
  rw [hm, ticks, ticks_countdown _ rfl m hmlt]
  have hone : (start (initialState s)).secondsLeft - (m : Int) = 1 := by
    rw [hsec]; omega
  rw [hone]
  unfold tick
  simp only [start, initialState]
  have hmod : ((0 : Int) + 1) % s.cycles = 0 ↔ s.cycles = 1 := by
    constructor
    · intro h0
      by_contra hne
      have h2 : 2 ≤ s.cycles := by omega
      rw [Int.emod_eq_of_lt (by omega) (by omega)] at h0
      omega
    · intro h1
      rw [h1]
      decide
  by_cases hcy : s.cycles = 1
  · simp [hcy, breakDuration, orDefault, hlo.ne']
  · have hne : ¬ ((0 : Int) + 1) % s.cycles = 0 := fun h0 => hcy (hmod.mp h0)
    have hnd : ¬ s.cycles ∣ 1 := fun hd =>
      hcy (Int.eq_one_of_dvd_one (by omega) hd)
    simp [hcy, hne, hnd, breakDuration, orDefault, hsh.ne']

/-- Witness for C2 at the source default settings 25/5/15/4: after 1500
ticks the timer is in short break with 300 seconds. -/
theorem tick_work_phase_complete_witness :
    ticks ((defaultSettings.work * 60).toNat)
        (start (initialState defaultSettings)) =
      { settings := defaultSettings
      , mode := if defaultSettings.cycles = 1 then Mode.long else Mode.short
      , secondsLeft :=
          (if defaultSettings.cycles = 1 then defaultSettings.long
           else defaultSettings.short) * 60
      , running := true
      , cyclesDone := 1 } :=
  tick_work_phase_complete defaultSettings (by decide) (by decide)
    (by decide) (by decide)

/-- Claim C3: the tick that exhausts a phase. Completing the N-th work
phase (cycle counter at N - 1) bumps the counter to N and enters long
break exactly when `cycles` divides N, short break otherwise, loading
that break's configured duration; completing any break returns to work
with the work duration loaded. Positive settings keep the `|| 5` and
`|| 25` fallbacks inert. -/
theorem phase_completion_spec (st : PomState) (N : Int)
    (hrun : st.running = true) (hend : st.secondsLeft ≤ 1)
    (_hc : 0 < st.settings.cycles) (hw : 0 < st.settings.work)
    (hsh : 0 < st.settings.short) (hlo : 0 < st.settings.long)
    (hN : st.cyclesDone = N - 1) :
    (st.mode = Mode.work →
      (tick st).cyclesDone = st.cyclesDone + 1
      ∧ ((tick st).mode = Mode.long ↔ st.settings.cycles ∣ N)
      ∧ ((tick st).mode = Mode.short ↔ ¬ st.settings.cycles ∣ N)
      ∧ (tick st).secondsLeft =
          (if st.settings.cycles ∣ N then st.settings.long
           else st.settings.short) * 60
      ∧ (tick st).running = true)
    ∧ (st.mode ≠ Mode.work →
      (tick st).mode = Mode.work
      ∧ (tick st).secondsLeft = st.settings.work * 60
      ∧ (tick st).running = true) := by
  constructor
  · intro hmode
    have hstep : st.cyclesDone + 1 = N := by omega
    have hiff : (st.cyclesDone + 1) % st.settings.cycles = 0 ↔
        st.settings.cycles ∣ N := by
      rw [hstep]
      exact ⟨Int.dvd_of_emod_eq_zero, Int.emod_eq_zero_of_dvd⟩
    unfold tick
    simp only [hrun, hend, hmode, if_true, Bool.true_eq_false, if_false]
    by_cases hd : st.settings.cycles ∣ N
    · have h0 : (st.cyclesDone + 1) % st.settings.cycles = 0 := hiff.mpr hd
      simp [h0, hd, breakDuration, orDefault, hlo.ne']
    · have h0 : ¬ (st.cyclesDone + 1) % st.settings.cycles = 0 :=
        fun hx => hd (hiff.mp hx)
      simp [h0, hd, breakDuration, orDefault, hsh.ne']
  · intro hmode
    unfold tick
    simp [hrun, hend, hmode, workDuration, orDefault, hw.ne']

/-- Witness for C3: with default settings, finishing the fourth work
phase (counter at 3) enters long break with 900 seconds; finishing a
short break returns to work with 1500 seconds. -/
theorem phase_completion_spec_witness :
    (tick { settings := defaultSettings, mode := Mode.work, secondsLeft := 1,
            running := true, cyclesDone := 3 }).mode = Mode.long
    ∧ (tick { settings := defaultSettings, mode := Mode.short,
              secondsLeft := 1, running := true,
              cyclesDone := 4 }).secondsLeft = 1500 := by
  constructor
  · have h := phase_completion_spec
      { settings := defaultSettings, mode := Mode.work, secondsLeft := 1,
        running := true, cyclesDone := 3 } 4 rfl (by decide) (by decide)
      (by decide) (by decide) (by decide) (by decide)
    exact (h.1 rfl).2.1.mpr (by decide)
  · have h := phase_completion_spec
      { settings := defaultSettings, mode := Mode.short, secondsLeft := 1,
        running := true, cyclesDone := 4 } 5 rfl (by decide) (by decide)
      (by decide) (by decide) (by decide) (by decide)
    exact (h.2 (by decide)).2.1

/-- Claim C7: `pause` freezes the countdown (no ticks are processed while
paused, so any number of ticks on a paused state changes nothing), and
`reset` from every state with a positive work setting restores work mode,
`work * 60` seconds, not running, and a zero cycle counter. -/
theorem pause_reset_spec (st : PomState) (n : Nat)
    (hw : 0 < st.settings.work) :
    (pause st).secondsLeft = st.secondsLeft
    ∧ ticks n (pause st) = pause st
    ∧ reset st = { st with running := false, cyclesDone := 0,
                           mode := Mode.work,
                           secondsLeft := st.settings.work * 60 } := by
  refine ⟨rfl, ?_, ?_⟩
  · induction n with
    | zero => rfl
    | succ m ih => rw [ticks, ih, tick_not_running _ rfl]
  · unfold reset workDuration orDefault
    simp [hw.ne']

/-- Witness for C7 at a concrete running state with default settings. -/
theorem pause_reset_spec_witness :
    ticks 7 (pause { settings := defaultSettings, mode := Mode.short,
                     secondsLeft := 42, running := true, cyclesDone := 2 }) =
      pause { settings := defaultSettings, mode := Mode.short,
              secondsLeft := 42, running := true, cyclesDone := 2 } :=
  (pause_reset_spec _ 7 (by decide)).2.1

/-- Claim C6: the tick callback never touches the running flag, so the
countdown continues across phase transitions; only the explicit
`pause`, `reset` or `setPreset` operations stop an active run, and
`start` is the only operation that sets it. -/
theorem tick_preserves_running (st : PomState) (k : Mode) :
    (tick st).running = st.running
    ∧ (start st).running = true
    ∧ (pause st).running = false
    ∧ (reset st).running = false
    ∧ (setPreset k st).running = false := by
  refine ⟨?_, rfl, rfl, rfl, rfl⟩
  unfold tick
  split
  · rfl
  · split
    · split <;> rfl
    · rfl

/-- Once `lastSeen` is today, a further same-day toggle only flips
`toggledToday`: the streak can never change again that day. -/
theorem toggleHabitOne_same_day (d : String) (h : Habit)
    (hls : h.lastSeen = some d) :
    toggleHabitOne d h =
      { h with toggledToday := !h.toggledToday, lastSeen := some d } := by
  cases hct : h.toggledToday <;> simp [toggleHabitOne, hls, hct]

/-- Claim C4 counterexample: a fresh habit toggled on and then off on the
same day ends the day off, yet its streak has still increased by one;
the claimed equivalence (streak grows by one iff the net result is on)
is false at call count two. -/
theorem toggleN_iff_cex :
    (toggleN 2 "2024-05-01" hFresh).toggledToday = false
    ∧ (toggleN 2 "2024-05-01" hFresh).streak = hFresh.streak + 1 := by
  decide

/-- Claim C4 amended: over any sequence of `n >= 1` same-day toggles on a
habit starting a fresh day, the final `toggledToday` equals (n is odd)
and the streak increases by exactly one regardless of the net result:
the first toggle-on increments it, and no later same-day toggle (on or
off) changes it again. -/
theorem toggleN_same_day_spec (todayKey : String) (h : Habit) (n : Nat)
    (hfresh : h.lastSeen ≠ some todayKey) (hn : 1 ≤ n) :
    (toggleN n todayKey h).toggledToday = decide (n % 2 = 1)
    ∧ (toggleN n todayKey h).streak = h.streak + 1
    ∧ (toggleN n todayKey h).lastSeen = some todayKey := by
  obtain ⟨m, rfl⟩ : ∃ m, n = m + 1 := ⟨n - 1, by omega⟩
  clear hn
  induction m with
  | zero =>
    have hd : decide (h.lastSeen = some todayKey) = false := by
      simp [hfresh]
    simp [toggleN, toggleHabitOne, hd]
  | succ k ih =>
    obtain ⟨ht, hstr, hl⟩ := ih
    rw [toggleN, toggleHabitOne_same_day todayKey _ hl]
    refine ⟨?_, hstr, rfl⟩
    show (!(toggleN (k + 1) todayKey h).toggledToday) =
      decide ((k + 1 + 1) % 2 = 1)
    rw [ht]
    rcases Nat.mod_two_eq_zero_or_one (k + 1) with hp | hp
    · have hq : (k + 1 + 1) % 2 = 1 := by omega
      simp [hp, hq]
    · have hq : (k + 1 + 1) % 2 = 0 := by omega
      simp [hp, hq]

/-- Witness for the amended C4 at a fresh habit and three toggles. -/
theorem toggleN_same_day_spec_witness :
    (toggleN 3 "2024-05-01" hFresh).toggledToday = decide (3 % 2 = 1)
    ∧ (toggleN 3 "2024-05-01" hFresh).streak = hFresh.streak + 1
    ∧ (toggleN 3 "2024-05-01" hFresh).lastSeen = some "2024-05-01" :=
  toggleN_same_day_spec "2024-05-01" hFresh 3 (by decide) (by decide)

/-- A timer state whose work setting is the falsy value zero. -/
def stZeroWork : PomState :=
  { settings := { work := 0, short := 5, long := 15, cycles := 4 },
    mode := Mode.short, secondsLeft := 1, running := true, cyclesDone := 0 }

/-- A timer state whose work setting is negative (truthy in JS, so the
`|| 25` fallback does not fire). -/
def stNegWork : PomState :=
  { settings := { work := -1, short := 5, long := 15, cycles := 4 },
    mode := Mode.short, secondsLeft := 1, running := true, cyclesDone := 0 }

/-- Claim C5 counterexample: with a zero work setting the loaded work
duration is the 25-minute default (1500 seconds), not a 1-minute
minimum; and a negative work setting is neither rejected nor clamped:
`reset` loads a negative countdown of -60 seconds. -/
theorem settings_min_clamp_cex :
    (reset stZeroWork).secondsLeft = 1500
    ∧ (reset stZeroWork).secondsLeft ≠ 60
    ∧ (tick stZeroWork).secondsLeft = 1500
    ∧ (reset stNegWork).secondsLeft = -60
    ∧ (reset stNegWork).secondsLeft < 0 := by
  decide

/-- Claim C5 amended: a phase duration setting equal to zero is replaced
by the built-in default (25 minutes for work, 5 for breaks) at the
moment the duration is loaded; every nonzero setting, including negative
ones, is used as-is, so there is no validation or clamping at the
settings boundary and a negative work setting produces a negative
countdown. -/
theorem settings_fallback_spec (st : PomState) :
    (st.settings.work = 0 → (reset st).secondsLeft = 1500)
    ∧ (st.settings.work ≠ 0 →
        (reset st).secondsLeft = st.settings.work * 60)
    ∧ (st.settings.work < 0 → (reset st).secondsLeft < 0)
    ∧ (st.running = true → st.secondsLeft ≤ 1 → st.mode ≠ Mode.work →
        st.settings.work = 0 → (tick st).secondsLeft = 1500)
    ∧ (st.settings.short = 0 → breakDuration st.settings Mode.short = 5)
    ∧ (st.settings.long = 0 → breakDuration st.settings Mode.long = 5) := by
  refine ⟨?_, ?_, ?_, ?_, ?_, ?_⟩
  · intro h0
    simp [reset, workDuration, orDefault, h0]
  · intro h0
    simp [reset, workDuration, orDefault, h0]
  · intro h0
    have hne : st.settings.work ≠ 0 := by omega
    simp only [reset, workDuration, orDefault, hne, if_false]
    exact mul_neg_of_neg_of_pos h0 (by norm_num)
  · intro hr he hm h0
    simp [tick, hr, he, hm, workDuration, orDefault, h0]
  · intro h0
    simp [breakDuration, orDefault, h0]
  · intro h0
    simp [breakDuration, orDefault, h0]

/-- Witness for the amended C5 at the zero-work state: finishing a break
loads the 25-minute default. -/
theorem settings_fallback_spec_witness :
    (tick stZeroWork).secondsLeft = 1500 :=
  (settings_fallback_spec stZeroWork).2.2.2.1 rfl (by decide) (by decide)
    (by decide)

/-- Two stored habits, one last seen yesterday and one today. -/
def habitsW : List Habit :=
  [ { id := "h1", title := "water", toggledToday := true, streak := 3,
      lastSeen := some "2024-04-30" }
  , { id := "h2", title := "run", toggledToday := true, streak := 5,
      lastSeen := some "2024-05-01" } ]

/-- Claim C8: the daily-reset pass maps each stored habit (whose day key,
when present, is a non-empty string) to the same habit with
`toggledToday` forced to false when `lastSeen` is not today and kept
as stored when it is; streak, lastSeen, id and title are untouched. -/
theorem dailyReset_spec (todayKey : String) (hs : List Habit)
    (hwf : ∀ h ∈ hs, h.lastSeen ≠ some "") :
    List.Forall₂ (fun h g =>
        g.streak = h.streak ∧ g.lastSeen = h.lastSeen ∧ g.id = h.id
        ∧ g.title = h.title
        ∧ g.toggledToday =
            (if h.lastSeen = some todayKey then h.toggledToday else false))
      hs (dailyReset todayKey hs) := by
  induction hs with
  | nil => exact List.Forall₂.nil
  | cons a t ih =>
    refine List.Forall₂.cons ?_
      (ih fun h hm => hwf h (List.mem_cons_of_mem a hm))
    have hne := hwf a (List.mem_cons_self a t)
    refine ⟨rfl, ?_, rfl, rfl, rfl⟩
    cases hls : a.lastSeen with
    | none => simp [dailyResetOne, jsOrNull, hls]
    | some s =>
      have hs0 : s ≠ "" := fun h0 => hne (by rw [hls, h0])
      simp [dailyResetOne, jsOrNull, hls, hs0]

/-- Witness for C8 on the two concrete habits: the yesterday habit is
forced off, the today habit keeps its stored toggle, everything else is
unchanged. -/
theorem dailyReset_spec_witness :
    List.Forall₂ (fun h g =>
        g.streak = h.streak ∧ g.lastSeen = h.lastSeen ∧ g.id = h.id
        ∧ g.title = h.title
        ∧ g.toggledToday =
            (if h.lastSeen = some "2024-05-01" then h.toggledToday else false))
      habitsW (dailyReset "2024-05-01" habitsW) :=
  dailyReset_spec "2024-05-01" habitsW (by decide)

/-- Claim C9: when the stored record is absent, or present but
unparsable, startup produces the default state (dark off, no todos, no
habits, empty notes, default Pomodoro settings); the failure is absorbed
inside `loadState` and never surfaces. -/
theorem loadState_default_spec (getItem : String → Option String)
    (parse : String → Option Persisted)
    (habsent : getItem STORAGE_KEY = none ∨
      ∃ r, getItem STORAGE_KEY = some r ∧ parse r = none) :
    initApp (loadState getItem parse) = defaultAppState := by
  rcases habsent with h | ⟨r, hr, hp⟩
  · simp [loadState, h, initApp, defaultAppState]
  · unfold loadState
    rw [hr]
    by_cases h0 : r = "" <;> simp [h0, hp, initApp, defaultAppState]

/-- Witness for C9 with empty storage and a parser that always fails. -/
theorem loadState_default_spec_witness :
    initApp (loadState (fun _ => none) (fun _ => none)) = defaultAppState :=
  loadState_default_spec (fun _ => none) (fun _ => none) (Or.inl rfl)

/-- Claim C10: `toggleHabit` is frame-preserving: any habit whose id does
not match is returned unchanged, and when no habit in the list matches
the id the whole list is unchanged. -/
theorem toggleHabit_frame (i todayKey : String) (hs : List Habit) :
    ((∀ h ∈ hs, h.id ≠ i) → toggleHabit i todayKey hs = hs)
    ∧ List.Forall₂ (fun h g => h.id ≠ i → g = h) hs
        (toggleHabit i todayKey hs) := by
  induction hs with
  | nil => exact ⟨fun _ => rfl, List.Forall₂.nil⟩
  | cons a t ih =>
    refine ⟨?_, ?_⟩
    · intro hall
      have ha := hall a (List.mem_cons_self a t)
      have ht := ih.1 fun h hm => hall h (List.mem_cons_of_mem a hm)
      simp only [toggleHabit, List.map_cons, if_neg ha] at ht ⊢
      rw [ht]
    · simp only [toggleHabit, List.map_cons]
      exact List.Forall₂.cons (fun ha => if_neg ha) ih.2

/-- Witness for C10: toggling an id that matches no habit leaves the
concrete habit list exactly as it was. -/
theorem toggleHabit_frame_witness :
    toggleHabit "zzz" "2024-05-01" habitsW = habitsW :=
  (toggleHabit_frame "zzz" "2024-05-01" habitsW).1 (by decide)

end DailyFlow
